import Mathlib

/-!
Verification of the kiwoom_stock regime-adaptive scoring and position-lifecycle
engine.  Python floats are modelled as rationals (`ℚ`); the Python builtin `round`
(round-half-to-even) is modelled exactly by `pyRound`.
Each definition is a shallow embedding of the corresponding function in
`src/kiwoom_stock`.
-/

namespace KiwoomStock

/-- Parity test on integers, used by round-half-to-even. -/
def evenInt (n : ℤ) : Bool := n % 2 == 0

/-- Round-half-to-even to the nearest integer, as the Python builtin `round`. -/
def roundHalfEven (x : ℚ) : ℤ :=
  if x - ⌊x⌋ < 1/2 then ⌊x⌋
  else if 1/2 < x - ⌊x⌋ then ⌊x⌋ + 1
  else if evenInt ⌊x⌋ then ⌊x⌋ else ⌊x⌋ + 1

/-- The Python `round(x, n)`: round-half-to-even at `n` decimal digits. -/
def pyRound (n : ℕ) (x : ℚ) : ℚ := (roundHalfEven (x * 10 ^ n) : ℚ) / 10 ^ n

/-- The Python `max(lo, min(hi, x))` clamp idiom. -/
def clamp (lo hi x : ℚ) : ℚ := max lo (min hi x)

/-- Arithmetic mean of a list, as the Python `statistics.mean` (on non-empty input). -/
def listMean (l : List ℚ) : ℚ := l.sum / l.length

/-!
Exit evaluation (`StockManager.get_exit_reason` in `monitoring/manager.py`,
identical logic in `TradingStrategy.get_exit_reason` in `monitoring/strategy.py`).
Times of day are modelled as rational minutes since midnight.  The reason
strings carry a formatted rate (`f"... ({profit_rate*100:.1f}%)"`); we model a
reason as a tag plus the displayed rate rounded as by the format specifier.
-/

/-- Exit reasons returned by `get_exit_reason`; the payload is the percentage
shown in the formatted reason string. -/
inductive ExitReason where
  | dayTradeClose : ExitReason
  | stopLoss (ratePct : ℚ) : ExitReason
  | takeProfit (ratePct : ℚ) : ExitReason
  | scoreDecay (ratePct : ℚ) : ExitReason
deriving DecidableEq

/-- Strategy configuration fields read in `StockManager.__init__` /
`TradingStrategy.__init__` (day-trade exit time, stop-loss, take-profit and
score-decay rates). -/
structure ExitConfig where
  dayTradeExitTime : ℚ
  stopLossRate : ℚ
  targetProfitRate : ℚ
  decayRate : ℚ

/-- Forced-exit time precomputed in `__init__`:
`(datetime.combine(today, exit_time) - timedelta(minutes=3)).time()`. -/
def forcedExitTime (c : ExitConfig) : ℚ := c.dayTradeExitTime - 3

/-- Shallow embedding of `StockManager.get_exit_reason(pos, current_price,
current_score, strong_threshold)`: time exit, stop loss, take profit with
momentum override, score decay, in that order. -/
def getExitReason (c : ExitConfig) (now buyPrice buyScore currentPrice currentScore
    strongThreshold : ℚ) : Option ExitReason :=
  let profitRate := currentPrice / buyPrice - 1
  if forcedExitTime c ≤ now then some .dayTradeClose
  else if profitRate ≤ c.stopLossRate then some (.stopLoss (pyRound 1 (profitRate * 100)))
  else if c.targetProfitRate ≤ profitRate then
    if strongThreshold ≤ currentScore then none
    else some (.takeProfit (pyRound 1 (profitRate * 100)))
  else if currentScore < buyScore * (1 - c.decayRate) then
    some (.scoreDecay (pyRound 0 (c.decayRate * 100)))
  else none

/-!
Kill switch (`StockManager.check_kill_switch` in `monitoring/manager.py` with
`TradeLogger.get_today_realized_pnl`): the realized P&L of the day from CLOSED trades
plus the unrealized P&L of each open position that has a logged current price,
compared against the configured total-loss limit.
-/

/-- An open position as seen by `check_kill_switch`: its immutable entry price
and the last observed price from the status log, when one exists. -/
structure OpenPos where
  buyPrice : ℚ
  lastPrice : Option ℚ

/-- The accumulation loop of `check_kill_switch`: positions without a logged
price are skipped, the rest contribute `(log price / buy_price − 1) * 100`. -/
def unrealizedPnlLoop (ps : List OpenPos) : ℚ :=
  ps.foldl (fun acc p =>
    match p.lastPrice with
    | some lp => acc + (lp / p.buyPrice - 1) * 100
    | none => acc) 0

/-- Shallow embedding of `check_kill_switch`: trips exactly when
`realized + unrealized ≤ total_loss_limit`. -/
def checkKillSwitch (limit realized : ℚ) (ps : List OpenPos) : Bool :=
  realized + unrealizedPnlLoop ps ≤ limit

/-- Spec-side unrealized sum: the sum over open positions with a price of
`(last price / entry price − 1)` in percent. -/
def specUnrealizedSum (ps : List OpenPos) : ℚ :=
  (ps.filterMap (fun p => p.lastPrice.map (fun lp => (lp / p.buyPrice - 1) * 100))).sum

/-!
Conviction score of `TradingStrategy.calculate_conviction_score` in
`monitoring/engine.py` (lines 287-328): four raw sub-scores combined as a dot
product with the weights of the active regime profile, rounded to one decimal.
-/

/-- Metrics dictionary consumed by the engine-side `calculate_conviction_score`. -/
structure EngMetrics where
  alpha : ℚ
  netBuy : ℚ
  fBuy : ℚ
  iBuy : ℚ
  price : ℚ
  volume : ℚ
  vwap : ℚ
  trendRsi : ℚ

/-- Per-regime factor weights (`weights` of the active regime profile). -/
structure Weights where
  alpha : ℚ
  supply : ℚ
  vwap : ℚ
  trend : ℚ

/-- Raw alpha sub-score: `max(0, min(100, 50 + alpha * 1.5))`. -/
def engAlphaRaw (m : EngMetrics) : ℚ := clamp 0 100 (50 + m.alpha * (3/2))

/-- Raw supply sub-score: net-buy ratio over volume times 50 plus a ±20 synergy
term when foreign and institutional flows agree in sign. -/
def engSupplyRaw (m : EngMetrics) : ℚ :=
  let totalVol := max 1 m.volume
  let sRatio := m.netBuy / totalVol * 100
  let synergy : ℚ :=
    if 0 < m.fBuy ∧ 0 < m.iBuy then 20
    else if m.fBuy < 0 ∧ m.iBuy < 0 then -20 else 0
  clamp 0 100 (sRatio * 50 + synergy)

/-- Raw VWAP sub-score: `50 + deviation% * 8` with deviation 0 when VWAP ≤ 0. -/
def engVwapRaw (m : EngMetrics) : ℚ :=
  let dev := if 0 < m.vwap then (m.price / m.vwap - 1) * 100 else 0
  clamp 0 100 (50 + dev * 8)

/-- Raw trend sub-score from the trend RSI. -/
def engTrendRaw (m : EngMetrics) : ℚ :=
  clamp 0 100 (if 50 ≤ m.trendRsi then 50 + (m.trendRsi - 50) * (3/2) else m.trendRsi)

/-- Composite score: weighted sum of the raw sub-scores with the profile
weights, rounded to one decimal (`round(..., 1)`); the weights are used exactly
as configured. -/
def engConvictionTotal (w : Weights) (m : EngMetrics) : ℚ :=
  pyRound 1 (engAlphaRaw m * w.alpha + engSupplyRaw m * w.supply +
    engVwapRaw m * w.vwap + engTrendRaw m * w.trend)

/-!
Market-regime classifier (`MarketAnalyzer.update_regime` in
`monitoring/analyzer.py`, same logic in `monitoring/engine.py`): given the
current index RSI, the current ATR and the rolling ATR history (ring buffer of
capacity 20), append the ATR, derive the volatility flag and classify with the
RSI thresholds used by the code.
-/

/-- Market regimes of the `MarketRegime` enum. -/
inductive MarketRegime where
  | stableBull | volatileBull | quietBear | panicBear | neutral | unknown
deriving DecidableEq

/-- Appending to `deque(maxlen=20)`: drop from the left beyond capacity 20. -/
def dequeAppend20 (h : List ℚ) (x : ℚ) : List ℚ :=
  if 20 < (h ++ [x]).length then (h ++ [x]).drop ((h ++ [x]).length - 20) else h ++ [x]

/-- Volatility flag of `update_regime`: `atr > avg_atr * 1.1` where `avg_atr`
is the mean of the (updated) ATR history once it has at least 5 samples, else
the current ATR itself. -/
def codeIsVolatile (atr : ℚ) (atrHist : List ℚ) : Bool :=
  let hist := dequeAppend20 atrHist atr
  let avgAtr := if 5 ≤ hist.length then listMean hist else atr
  avgAtr * (11/10) < atr

/-- Classification step of `update_regime` after RSI and ATR are computed:
the RSI thresholds are the literals 60 and 40. -/
def classifyRegime (rsi atr : ℚ) (atrHist : List ℚ) : MarketRegime :=
  if 60 ≤ rsi then
    if codeIsVolatile atr atrHist then .volatileBull else .stableBull
  else if rsi ≤ 40 then
    if codeIsVolatile atr atrHist then .panicBear else .quietBear
  else .neutral

/-- Fixed-threshold classifier stated from the amended claim: high threshold
60 and low threshold 40, independent of any RSI history. -/
def fixedThresholdClassify (rsi : ℚ) (isVolatile : Bool) : MarketRegime :=
  if 60 ≤ rsi then (if isVolatile then .volatileBull else .stableBull)
  else if rsi ≤ 40 then (if isVolatile then .panicBear else .quietBear)
  else .neutral

/-- High RSI threshold as the claim describes it: `mean + 0.5 * stdev` of the
RSI history clamped to `[55, 70]`, given the mean and standard
deviation. -/
def specDynamicHigh (mu sigma : ℚ) : ℚ := clamp 55 70 (mu + sigma * (1/2))

/-- Sample variance (`statistics.stdev` squared), used to justify a concrete
standard deviation of zero without leaving the rationals. -/
def sampleVariance (l : List ℚ) : ℚ :=
  ((l.map (fun x => (x - listMean l) ^ 2)).sum) / ((l.length : ℚ) - 1)

/-!
Entry evaluation and the open-position set
(`MultiTimeframeRSIMonitor.evaluate_entry_signal` and the entry block of
`MultiTimeframeRSIMonitor.run` in `monitoring/engine.py`).  The
`active_positions` dict is modelled as an association list keyed by instrument
code.
-/

/-- Scored candidate row consumed by `evaluate_entry_signal` (`res`). -/
structure EntryRes where
  alphaScore : ℚ
  supplyScore : ℚ
  vwapScore : ℚ
  trendScore : ℚ
  score : ℚ

/-- Per-factor minimum thresholds of the active regime (`min_th`). -/
structure MinThresholds where
  alpha : ℚ
  supply : ℚ
  vwap : ℚ
  trend : ℚ

/-- Stored open-position record (the `buy_data` dict put into
`active_positions`). -/
structure PositionRec where
  recId : ℕ
  buyPrice : ℚ
  buyScore : ℚ

/-- Shallow embedding of `evaluate_entry_signal`: conjunction of the time
limit, no existing open position for the code, composite score at or above the
`strong` threshold, and every sub-score at or above its minimum. -/
def evaluateEntrySignal (openCodes : List String) (code : String) (res : EntryRes)
    (strongTh : ℚ) (minTh : MinThresholds) (now deadline : ℚ) : Bool :=
  (decide (now < deadline)) &&
  (!(decide (code ∈ openCodes))) &&
  (decide (strongTh ≤ res.score)) &&
  ((decide (minTh.alpha ≤ res.alphaScore)) && (decide (minTh.supply ≤ res.supplyScore)) &&
   (decide (minTh.vwap ≤ res.vwapScore)) && (decide (minTh.trend ≤ res.trendScore)))

/-- Entry block of `run`: record a new position only when
`evaluate_entry_signal` passes and (second guard in `run`) the code is not
already an open position. -/
def entryStep (st : List (String × PositionRec)) (code : String) (res : EntryRes)
    (strongTh : ℚ) (minTh : MinThresholds) (now deadline : ℚ) (rec : PositionRec) :
    List (String × PositionRec) :=
  if evaluateEntrySignal (st.map Prod.fst) code res strongTh minTh now deadline then
    if decide (code ∈ st.map Prod.fst) then st else (code, rec) :: st
  else st

/-- Exit effect on the open-position set (`del self.active_positions[stock_code]`). -/
def closeStep (st : List (String × PositionRec)) (code : String) :
    List (String × PositionRec) :=
  st.filter (fun p => decide (p.1 ≠ code))

/-- One lifecycle operation: an entry evaluation or an exit removal. -/
inductive PosOp where
  | entry (code : String) (res : EntryRes) (now : ℚ) (rec : PositionRec)
  | close (code : String)

/-- A sequence of entry/exit evaluations applied to the open-position set. -/
def applyOps (strongTh : ℚ) (minTh : MinThresholds) (deadline : ℚ)
    (st : List (String × PositionRec)) : List PosOp → List (String × PositionRec)
  | [] => st
  | PosOp.entry code res now rec :: t =>
      applyOps strongTh minTh deadline (entryStep st code res strongTh minTh now deadline rec) t
  | PosOp.close code :: t =>
      applyOps strongTh minTh deadline (closeStep st code) t

/-!
Supply-cache category updates (`MarketAnalyzer.update_priority_supply`,
`_update_program_data`, `_update_foreign_data` in `monitoring/analyzer.py`,
with `MarketDataCollector.fetch_program_trade` / `fetch_foreign_window_trade`
in `monitoring/collector.py`).  A failed bulk fetch is caught inside the
collector, which then returns an empty map, so per-instrument category updates
see "no data" and keep the previous cached value.
-/

/-- Program-trade bulk entry for one instrument. -/
structure PgmData where
  netprpsPrica : ℚ
  allTrdeRt : ℚ

/-- Foreign-window bulk entry for one instrument. -/
structure FrgnData where
  netprpsPrica : ℚ
  trdePrica : ℚ

/-- The per-instrument supply-cache entry fields touched by the two category
updates under study. -/
structure SupplyCacheEntry where
  pgmData : PgmData
  foreignData : FrgnData

/-- Collector behaviour: a raised fetch is caught and an empty map returned. -/
def fetchOrEmpty {α : Type} (r : Except Unit (List (String × α))) : List (String × α) :=
  match r with
  | .ok m => m
  | .error _ => []

/-- Map lookup (`code in pgm_map` / `pgm_map[code]`). -/
def lookupCode {α : Type} (m : List (String × α)) (code : String) : Option α :=
  (m.find? (fun p => decide (p.1 = code))).map Prod.snd

/-- Shallow embedding of `_update_program_data`: replace the `pgm_data` field
when the bulk map has the code, keep the previous value otherwise. -/
def updateProgramData (code : String) (pgmMap : List (String × PgmData))
    (e : SupplyCacheEntry) : SupplyCacheEntry :=
  match lookupCode pgmMap code with
  | some d => { e with pgmData := d }
  | none => e

/-- Shallow embedding of `_update_foreign_data`. -/
def updateForeignData (code : String) (frgnMap : List (String × FrgnData))
    (e : SupplyCacheEntry) : SupplyCacheEntry :=
  match lookupCode frgnMap code with
  | some d => { e with foreignData := d }
  | none => e

/-- One supply cycle for one cached instrument, restricted to the two bulk
categories: both bulk fetches happen (each collapsing to an empty map on
failure), then the two category updates run in order. -/
def updateSupplyCategories (pgmRes : Except Unit (List (String × PgmData)))
    (frgnRes : Except Unit (List (String × FrgnData))) (code : String)
    (e : SupplyCacheEntry) : SupplyCacheEntry :=
  updateForeignData code (fetchOrEmpty frgnRes)
    (updateProgramData code (fetchOrEmpty pgmRes) e)

/-!
Exit execution (`StockManager.monitor_active_signals` in
`monitoring/manager.py` with `TradeLogger.record_sell` in `core/database.py`):
`record_sell` runs first, then the sell notification, then the in-memory
removal.  `record_sell` does not catch its own exceptions, so a storage
failure propagates before the notification and the removal happen; the model
flags storage failure with `dbOk = false`, in which case no mutation occurs.
-/

/-- Observable actions of one exit execution, in emission order. -/
inductive ExitAction where
  | dbRecordSell (recId : ℕ) (sellPrice profitPct : ℚ) (reason : ExitReason)
  | notifySell (profitPct : ℚ) (reason : ExitReason)
  | removePosition (code : String)
deriving DecidableEq

/-- Engine-side state touched by `monitor_active_signals`: the open-position
set and the storage rows updated to CLOSED. -/
structure EngineState where
  positions : List (String × PositionRec)
  dbClosed : List (ℕ × ℚ × ℚ × ExitReason)

/-- Shallow embedding of `monitor_active_signals`: skip unknown codes, ask
`get_exit_reason`, and on an exit reason record the close in storage, notify,
then delete the position; when storage raises (`dbOk = false`) nothing is
mutated and no further action runs. -/
def monitorActiveSignals (dbOk : Bool) (c : ExitConfig) (now : ℚ) (s : EngineState)
    (code : String) (price score strong : ℚ) : EngineState × List ExitAction :=
  match lookupCode s.positions code with
  | none => (s, [])
  | some pos =>
    match getExitReason c now pos.buyPrice pos.buyScore price score strong with
    | none => (s, [])
    | some r =>
      let profit := pyRound 2 ((price / pos.buyPrice - 1) * 100)
      if dbOk then
        ({ positions := closeStep s.positions code,
           dbClosed := s.dbClosed ++ [(pos.recId, price, profit, r)] },
         [.dbRecordSell pos.recId price profit r, .notifySell profit r,
          .removePosition code])
      else (s, [])

/-!
RSI with Wilder smoothing (`Indicators.calculate` in `core/indicators.py`).
Prices arrive most-recent-first; changes `prices[i] - prices[i+1]` are
computed and then reversed, seed averages are plain means of the first
`period` gains/losses, and the remaining changes are folded through Wilder
smoothing.
-/

/-- The `price_changes` list: pairwise differences, then reversed. -/
def priceChanges (prices : List ℚ) : List ℚ :=
  (List.zipWith (fun a b => a - b) prices prices.tail).reverse

/-- One Wilder smoothing step:
`avg = (avg * (period - 1) + current) / period` for gain and loss. -/
def wilderStep (p : ℕ) (gl : ℚ × ℚ) (c : ℚ) : ℚ × ℚ :=
  ((gl.1 * ((p : ℚ) - 1) + max c 0) / p, (gl.2 * ((p : ℚ) - 1) + max (-c) 0) / p)

/-- Seed averages (means of the first `period` gains/losses) folded through the
remaining changes with Wilder smoothing; first component is the smoothed
average gain, second the smoothed average loss. -/
def wilderAvgs (p : ℕ) (changes : List ℚ) : ℚ × ℚ :=
  (changes.drop p).foldl (wilderStep p)
    (listMean ((changes.take p).map (fun c => max c 0)),
     listMean ((changes.take p).map (fun c => max (-c) 0)))

/-- Smoothed average loss over the window, exposed for the zero-loss case. -/
def smoothedAvgLoss (p : ℕ) (prices : List ℚ) : ℚ :=
  (wilderAvgs p (priceChanges prices)).2

/-- Shallow embedding of `Indicators.calculate`: neutral 50.0 with fewer than
`period + 1` prices, 100.0 when the smoothed average loss is zero, otherwise
`round(100 - 100 / (1 + rs), 2)` with `rs = avg_gain / avg_loss`. -/
def rsiCalculate (p : ℕ) (prices : List ℚ) : ℚ :=
  if prices.length < p + 1 then 50
  else if (wilderAvgs p (priceChanges prices)).2 = 0 then 100
  else pyRound 2 (100 - 100 /
    (1 + (wilderAvgs p (priceChanges prices)).1 / (wilderAvgs p (priceChanges prices)).2))

/-!
Conviction scoring of `TradingStrategy` in `monitoring/strategy.py`
(lines 115-371): the four sub-score models `_calculate_alpha_score`,
`_calculate_supply_score`, `_calculate_vwap_score`, `_calculate_trend_score`,
the per-instrument dynamic weights `_calculate_dynamic_weights`, and the
composite `calculate_conviction_score`.  Metric dictionary entries are the
structure fields below; intermediate Python locals become named definitions.
-/

/-- Metrics dictionary consumed by the strategy scoring methods. -/
structure SMetrics where
  priceSeries : List ℚ
  volumeSeries : List ℚ
  strength : ℚ
  pgmNet : ℚ
  frgnNet : ℚ
  trdeQty : ℚ
  curPrc : ℚ
  volRatio : ℚ
  vwap : ℚ
  price : ℚ
  volFactor : ℚ
  prevVwap : ℚ
  atrPercent : ℚ
  ema5 : ℚ
  ema20 : ℚ
  ema60 : ℚ
  prevEma60 : ℚ

/-- Momentum acceleration of `_calculate_alpha_score`:
1-minute rate of change minus a fifth of the 5-minute rate of change. -/
def alphaAccel (m : SMetrics) : ℚ :=
  let ps := m.priceSeries
  let currP := ps.getD (ps.length - 1) 0
  let p1 := ps.getD (ps.length - 2) 0
  let p5 := ps.getD (ps.length - 6) 0
  (currP - p1) / p1 * 100 - ((currP - p5) / p5 * 100) / 5

/-- Volume-surge factor of `_calculate_alpha_score`: last volume over the mean
of the prior four, denominator floored at 1, capped at 2. -/
def alphaVolFactor (m : SMetrics) : ℚ :=
  let vs := m.volumeSeries
  min 2 (vs.getD (vs.length - 1) 0 / max 1 (((vs.drop (vs.length - 5)).take 4).sum / 4))

/-- Alpha sub-score: zero without six samples or with non-positive reference
prices, otherwise the clamped, rounded `acceleration * 100 * volume factor`. -/
def alphaScore (m : SMetrics) : ℚ :=
  if m.priceSeries.length < 6 ∨ m.volumeSeries.length < 6 then 0
  else if m.priceSeries.getD (m.priceSeries.length - 2) 0 ≤ 0 ∨
          m.priceSeries.getD (m.priceSeries.length - 6) 0 ≤ 0 then 0
  else pyRound 2 (clamp 0 100 (alphaAccel m * 100 * alphaVolFactor m))

/-- Cumulative traded amount in millions: `max(1, qty * price) / 1000000`. -/
def marketTotalAmount (m : SMetrics) : ℚ := max 1 (m.trdeQty * m.curPrc) / 1000000

/-- Supply base score from tick strength: `clamp(50 + (strength-100)*0.5)`. -/
def supplyBaseScore (m : SMetrics) : ℚ := clamp 0 100 (50 + (m.strength - 100) * 0.5)

/-- Program net-flow share of total amount, zeroed under 10 million won and
clamped to ±0.5. -/
def pgmAdj (m : SMetrics) : ℚ :=
  if marketTotalAmount m < 10 then 0
  else max (-0.5) (min 0.5 (m.pgmNet / marketTotalAmount m))

/-- Foreign-window net-flow share, same shape as `pgmAdj`. -/
def frgnAdj (m : SMetrics) : ℚ :=
  if marketTotalAmount m < 10 then 0
  else max (-0.5) (min 0.5 (m.frgnNet / marketTotalAmount m))

/-- Safety-pin trust factor: halved when volume ratio is below 5%. -/
def supplyTrustFactor (m : SMetrics) : ℚ := if m.volRatio < 5 then 0.5 else 1

/-- Supply sub-score: base times `1 + (pgm + frgn) * trust`, clamped and
rounded. -/
def supplyScore (m : SMetrics) : ℚ :=
  pyRound 2 (clamp 0 100
    (supplyBaseScore m * (1 + (pgmAdj m + frgnAdj m) * supplyTrustFactor m)))

/-- VWAP deviation in percent. -/
def vwapDeviation (m : SMetrics) : ℚ := (m.price - m.vwap) / m.vwap * 100

/-- Overheat limit: `max(3, ATR% * 1.5)`. -/
def overheatLimit (m : SMetrics) : ℚ := max 3 (m.atrPercent * 1.5)

/-- Position score of `_calculate_vwap_score`: linear decay above VWAP,
breakout ramp scaled by the volume factor below it. -/
def vwapPosScore (m : SMetrics) : ℚ :=
  if 0 ≤ vwapDeviation m then 100 * (1 - min 1 (vwapDeviation m / overheatLimit m))
  else 100 * (1 + max (-1) (vwapDeviation m / (m.atrPercent * 0.2))) * m.volFactor

/-- VWAP slope factor in `[0.8, 1.2]` from the normalized VWAP slope. -/
def vwapSlopeFactor (m : SMetrics) : ℚ :=
  if 0 < m.prevVwap ∧ m.vwap ≠ m.prevVwap then
    1 + clamp (-1) 1 ((m.vwap - m.prevVwap) / m.vwap * 1000) * 0.2
  else 1

/-- VWAP sub-score: zero when VWAP ≤ 0, otherwise position score times slope
factor, clamped and rounded. -/
def vwapScore (m : SMetrics) : ℚ :=
  if m.vwap ≤ 0 then 0
  else pyRound 2 (clamp 0 100 (vwapPosScore m * vwapSlopeFactor m))

/-- Trend energy density: EMA gaps normalized by ATR%. -/
def trendEnergyDensity (m : SMetrics) : ℚ :=
  ((m.ema5 - m.ema20) / m.ema20 * 100 + (m.ema20 - m.ema60) / m.ema60 * 100) / m.atrPercent

/-- Trend base score: 50 plus 50 times the compressed energy density. -/
def trendBaseScore (m : SMetrics) : ℚ := 50 + clamp (-1) 1 (trendEnergyDensity m) * 50

/-- Dispersal overheat beyond one ATR unit. -/
def trendOverheat (m : SMetrics) : ℚ :=
  max 0 ((m.ema5 - m.ema60) / m.ema60 * 100 / m.atrPercent - 1)

/-- Dispersal penalty: overheat halved, capped at 1. -/
def trendPenalty (m : SMetrics) : ℚ := min 1 (trendOverheat m / 2)

/-- EMA60 slope factor in `[0.8, 1.2]`. -/
def trendSlopeFactor (m : SMetrics) : ℚ :=
  1 + clamp (-1) 1 ((m.ema60 - m.prevEma60) / m.ema60 * 1000) * 0.2

/-- Trend sub-score: zero when EMA60 ≤ 0, otherwise penalized base times slope
factor, clamped and rounded. -/
def trendScore (m : SMetrics) : ℚ :=
  if m.ema60 ≤ 0 then 0
  else pyRound 2 (clamp 0 100 (trendBaseScore m * (1 - trendPenalty m) * trendSlopeFactor m))

/-- Alpha importance of `_calculate_dynamic_weights`. -/
def impAlpha (m : SMetrics) : ℚ := 1 * m.volFactor

/-- Supply importance. -/
def impSupply (m : SMetrics) : ℚ := 1 * m.volFactor

/-- Absolute VWAP deviation used for the VWAP importance (0 when VWAP ≤ 0). -/
def weightDeviation (m : SMetrics) : ℚ :=
  if 0 < m.vwap then |m.price - m.vwap| / m.vwap * 100 else 0

/-- VWAP importance: stronger the closer price sits to VWAP relative to ATR. -/
def impVwap (m : SMetrics) : ℚ := 1.5 / (1 + weightDeviation m / max 0.1 m.atrPercent)

/-- EMA alignment quality: 1.2 for a strict ordering either way, else 0.7. -/
def isOrderedFactor (m : SMetrics) : ℚ :=
  if (m.ema20 < m.ema5 ∧ m.ema60 < m.ema20) ∨ (m.ema5 < m.ema20 ∧ m.ema20 < m.ema60)
  then 1.2 else 0.7

/-- Full EMA span relative to EMA60 (0 when EMA60 ≤ 0). -/
def totalGap (m : SMetrics) : ℚ :=
  if 0 < m.ema60 then |m.ema5 - m.ema60| / m.ema60 * 100 else 0

/-- Expansion factor: span over ATR, capped at 0.5. -/
def expansionFactor (m : SMetrics) : ℚ := min 0.5 (totalGap m / m.atrPercent)

/-- Trend importance. -/
def impTrend (m : SMetrics) : ℚ := 1 * isOrderedFactor m * (1 + expansionFactor m)

/-- Importance total used as the normalization denominator. -/
def totalImp (m : SMetrics) : ℚ := impAlpha m + impSupply m + impVwap m + impTrend m

/-- Normalized alpha weight. -/
def wAlpha (m : SMetrics) : ℚ := impAlpha m / totalImp m

/-- Normalized supply weight. -/
def wSupply (m : SMetrics) : ℚ := impSupply m / totalImp m

/-- Normalized VWAP weight. -/
def wVwap (m : SMetrics) : ℚ := impVwap m / totalImp m

/-- Normalized trend weight. -/
def wTrend (m : SMetrics) : ℚ := impTrend m / totalImp m

/-- Composite conviction score of `calculate_conviction_score`: sub-scores
dotted with the dynamic weights, rounded to one decimal. -/
def convictionTotal (m : SMetrics) : ℚ :=
  pyRound 1 (alphaScore m * wAlpha m + supplyScore m * wSupply m +
    vwapScore m * wVwap m + trendScore m * wTrend m)

/-- Metrics exhibiting an out-of-range composite: a negative `vol_factor`
(derivable from a negative last volume) denormalizes the dynamic weights. -/
def badMetrics : SMetrics :=
  ⟨[], [], 100, 0, 0, 0, 0, 100, 100, 100, -1, 100, 3, 0, 0, 0, 0⟩

theorem roundHalfEven_cases (x : ℚ) :
    roundHalfEven x = ⌊x⌋ ∨ roundHalfEven x = ⌊x⌋ + 1 := by
  unfold roundHalfEven
  split_ifs <;> simp

theorem roundHalfEven_ge {x : ℚ} {A : ℤ} (h : (A : ℚ) ≤ x) : A ≤ roundHalfEven x := by
  have hfl : A ≤ ⌊x⌋ := Int.le_floor.mpr h
  rcases roundHalfEven_cases x with h1 | h1 <;> omega

theorem roundHalfEven_le {x : ℚ} {B : ℤ} (h : x ≤ (B : ℚ)) : roundHalfEven x ≤ B := by
  have hfl : ⌊x⌋ ≤ B := by
    have := Int.floor_le_floor h
    simpa using this
  unfold roundHalfEven
  split_ifs with h1 h2 h3
  · exact hfl
  · -- here 1/2 < x - ⌊x⌋, so x > ⌊x⌋ + 1/2; with x ≤ B this forces ⌊x⌋ < B
    have hx : (⌊x⌋ : ℚ) + 1/2 < x := by linarith
    have : (⌊x⌋ : ℚ) < (B : ℚ) := by linarith
    have : ⌊x⌋ < B := by exact_mod_cast this
    omega
  · exact hfl
  · have hx : (⌊x⌋ : ℚ) + 1/2 ≤ x := by linarith
    have : (⌊x⌋ : ℚ) < (B : ℚ) := by linarith
    have : ⌊x⌋ < B := by exact_mod_cast this
    omega

theorem pyRound_nonneg {x : ℚ} (h : 0 ≤ x) (n : ℕ) : 0 ≤ pyRound n x := by
  unfold pyRound
  have hx : ((0 : ℤ) : ℚ) ≤ x * 10 ^ n := by positivity
  have := roundHalfEven_ge hx
  have hcast : (0 : ℚ) ≤ (roundHalfEven (x * 10 ^ n) : ℚ) := by exact_mod_cast this
  positivity

theorem pyRound_le_of_le {x B : ℚ} (b : ℤ) (hb : B = (b : ℚ)) (h : x ≤ B) (n : ℕ) :
    pyRound n x ≤ B := by
  subst hb
  unfold pyRound
  have hx : x * 10 ^ n ≤ ((b * 10 ^ n : ℤ) : ℚ) := by
    push_cast
    have hpow : (0 : ℚ) < 10 ^ n := by positivity
    nlinarith
  have hr := roundHalfEven_le hx
  have hcast : (roundHalfEven (x * 10 ^ n) : ℚ) ≤ ((b : ℚ) * 10 ^ n) := by
    exact_mod_cast hr
  have hpow : (0 : ℚ) < 10 ^ n := by positivity
  rw [div_le_iff₀ hpow]
  linarith

theorem pyRound_mem_Icc {x : ℚ} (h0 : 0 ≤ x) (h1 : x ≤ 100) (n : ℕ) :
    0 ≤ pyRound n x ∧ pyRound n x ≤ 100 :=
  ⟨pyRound_nonneg h0 n, pyRound_le_of_le 100 (by norm_num) h1 n⟩

theorem clamp_mem_Icc (lo hi x : ℚ) (h : lo ≤ hi) :
    lo ≤ clamp lo hi x ∧ clamp lo hi x ≤ hi := by
  unfold clamp
  constructor
  · exact le_max_left _ _
  · exact max_le h (min_le_left _ _)

theorem listMean_nonneg {l : List ℚ} (h : ∀ x ∈ l, 0 ≤ x) : 0 ≤ listMean l := by
  unfold listMean
  have hs : 0 ≤ l.sum := List.sum_nonneg h
  positivity

/-- C1: the exit evaluation checks its four conditions in strict priority order
with first match winning: (1) forced time exit once `now ≥ exit time − 3 min`,
regardless of profit or score (in particular a stop-loss-deep loss past the
forced-exit time still yields the day-trade-close reason); (2) stop loss;
(3) take profit (whose outcome is the momentum-override branch); (4) score
decay; and when no condition matches, no exit reason is returned. -/
theorem C1_exit_priority (c : ExitConfig) (now buyPrice buyScore price score strong : ℚ) :
    (forcedExitTime c ≤ now →
      getExitReason c now buyPrice buyScore price score strong = some .dayTradeClose) ∧
    (now < forcedExitTime c → price / buyPrice - 1 ≤ c.stopLossRate →
      getExitReason c now buyPrice buyScore price score strong =
        some (.stopLoss (pyRound 1 ((price / buyPrice - 1) * 100)))) ∧
    (now < forcedExitTime c → c.stopLossRate < price / buyPrice - 1 →
      c.targetProfitRate ≤ price / buyPrice - 1 → score < strong →
      getExitReason c now buyPrice buyScore price score strong =
        some (.takeProfit (pyRound 1 ((price / buyPrice - 1) * 100)))) ∧
    (now < forcedExitTime c → c.stopLossRate < price / buyPrice - 1 →
      price / buyPrice - 1 < c.targetProfitRate → score < buyScore * (1 - c.decayRate) →
      getExitReason c now buyPrice buyScore price score strong =
        some (.scoreDecay (pyRound 0 (c.decayRate * 100)))) ∧
    (now < forcedExitTime c → c.stopLossRate < price / buyPrice - 1 →
      price / buyPrice - 1 < c.targetProfitRate → buyScore * (1 - c.decayRate) ≤ score →
      getExitReason c now buyPrice buyScore price score strong = none) := by
  unfold getExitReason
  refine ⟨fun h1 => ?_, fun h1 h2 => ?_, fun h1 h2 h3 h4 => ?_,
    fun h1 h2 h3 h4 => ?_, fun h1 h2 h3 h4 => ?_⟩ <;>
    simp only [] <;> split_ifs <;> first | rfl | (exfalso; linarith)

/-- Concrete instance of C1: position at −2% profit with stop-loss rate −1.5%
while the time is past the forced-exit time returns the day-trade-close reason,
not the stop-loss reason. -/
theorem C1_exit_priority_witness :
    getExitReason ⟨930, -3/200, 1/40, 3/20⟩ 929 100 90 98 50 85 =
      some ExitReason.dayTradeClose :=
  (C1_exit_priority ⟨930, -3/200, 1/40, 3/20⟩ 929 100 90 98 50 85).1 (by norm_num [forcedExitTime])

/-- C5: take-profit momentum override.  When the time exit and stop loss do not
fire and the profit rate is at or above the target rate, the position stays
open (no exit reason) exactly when the current score is at or above the strong
threshold, and otherwise exits with the take-profit reason carrying the profit
rate in percent. -/
theorem C5_take_profit_override (c : ExitConfig) (now buyPrice buyScore price score strong : ℚ)
    (h1 : now < forcedExitTime c)
    (h2 : c.stopLossRate < price / buyPrice - 1)
    (h3 : c.targetProfitRate ≤ price / buyPrice - 1) :
    getExitReason c now buyPrice buyScore price score strong =
      if strong ≤ score then none
      else some (.takeProfit (pyRound 1 ((price / buyPrice - 1) * 100))) := by
  unfold getExitReason
  simp only []
  split_ifs <;> first | rfl | (exfalso; linarith)

/-- Concrete instance of C5: profit +3%, target +2.5%: score 90 against strong
threshold 85 yields no exit, while score 70 yields the take-profit reason at
+3.0%. -/
theorem C5_take_profit_override_witness :
    getExitReason ⟨930, -3/200, 1/40, 3/20⟩ 600 100 90 103 90 85 = none ∧
    getExitReason ⟨930, -3/200, 1/40, 3/20⟩ 600 100 90 103 70 85 =
      some (ExitReason.takeProfit 3) := by
  constructor
  · have h := C5_take_profit_override ⟨930, -3/200, 1/40, 3/20⟩ 600 100 90 103 90 85
      (by norm_num [forcedExitTime]) (by norm_num) (by norm_num)
    rw [h]
    norm_num
  · have h := C5_take_profit_override ⟨930, -3/200, 1/40, 3/20⟩ 600 100 90 103 70 85
      (by norm_num [forcedExitTime]) (by norm_num) (by norm_num)
    rw [h]
    norm_num [pyRound, roundHalfEven]

theorem unrealizedPnlLoop_aux (ps : List OpenPos) (a : ℚ) :
    ps.foldl (fun acc p =>
      match p.lastPrice with
      | some lp => acc + (lp / p.buyPrice - 1) * 100
      | none => acc) a = a + specUnrealizedSum ps := by
  induction ps generalizing a with
  | nil => simp [specUnrealizedSum]
  | cons p t ih =>
    rcases p with ⟨bp, lp⟩
    cases lp with
    | none => simp only [List.foldl_cons, specUnrealizedSum, List.filterMap_cons, Option.map_none]
              rw [ih]
              simp [specUnrealizedSum]
    | some v => simp only [List.foldl_cons, specUnrealizedSum, List.filterMap_cons, Option.map_some]
                rw [ih]
                simp [specUnrealizedSum]
                ring

/-- C6: the kill switch trips exactly when realized P&L plus the sum of
per-position unrealized P&L (as `(last/entry − 1)` percent) is at or below the
configured limit; concretely, realized −3.0% plus unrealized −2.1% against a
−5.0% limit trips, while a −4.9% total does not. -/
theorem C6_kill_switch :
    (∀ (limit realized : ℚ) (ps : List OpenPos),
      checkKillSwitch limit realized ps = true ↔
        realized + specUnrealizedSum ps ≤ limit) ∧
    checkKillSwitch (-5) (-3) [⟨100, some (979/10)⟩] = true ∧
    checkKillSwitch (-5) (-3) [⟨100, some (981/10)⟩] = false := by
  refine ⟨fun limit realized ps => ?_, ?_, ?_⟩
  · unfold checkKillSwitch unrealizedPnlLoop
    rw [unrealizedPnlLoop_aux]
    simp
  · unfold checkKillSwitch unrealizedPnlLoop
    norm_num
  · unfold checkKillSwitch unrealizedPnlLoop
    norm_num

/-- C2: the composite conviction score is the dot product of the four raw
sub-scores with the configured regime weights, with no renormalization.  For
raw sub-scores 80/60/50/90 and weights 0.3/0.2/0.2/0.3 the composite is 73.0,
and with weights summing to 2 instead of 1 the composite of all-100 sub-scores
is 200, not rescaled to 100. -/
theorem C2_composite_dot_product :
    (∀ (w : Weights) (m : EngMetrics),
      engConvictionTotal w m =
        pyRound 1 (engAlphaRaw m * w.alpha + engSupplyRaw m * w.supply +
          engVwapRaw m * w.vwap + engTrendRaw m * w.trend)) ∧
    (engAlphaRaw ⟨20, 12, 12, 0, 100, 1000, 100, 230/3⟩ = 80 ∧
     engSupplyRaw ⟨20, 12, 12, 0, 100, 1000, 100, 230/3⟩ = 60 ∧
     engVwapRaw ⟨20, 12, 12, 0, 100, 1000, 100, 230/3⟩ = 50 ∧
     engTrendRaw ⟨20, 12, 12, 0, 100, 1000, 100, 230/3⟩ = 90 ∧
     engConvictionTotal ⟨3/10, 1/5, 1/5, 3/10⟩ ⟨20, 12, 12, 0, 100, 1000, 100, 230/3⟩ = 73) ∧
    engConvictionTotal ⟨1/2, 1/2, 1/2, 1/2⟩ ⟨40, 1000, 1, 1, 110, 100, 100, 100⟩ = 200 := by
  refine ⟨fun w m => rfl, ⟨?_, ?_, ?_, ?_, ?_⟩, ?_⟩ <;>
    norm_num [engAlphaRaw, engSupplyRaw, engVwapRaw, engTrendRaw, engConvictionTotal,
      clamp, pyRound, roundHalfEven, evenInt]

/-- C4 counterexample: with five RSI samples all equal to 50 the dynamic high threshold of the claim is `clamp 55 70 (50 + 0.5*0) = 55`, so RSI 57 should
classify as a bull regime; the code classifies RSI 57 as NEUTRAL because its
thresholds are the fixed literals 60/40 and no RSI history is kept at all. -/
theorem C4_counterexample :
    listMean [50, 50, 50, 50, 50] = 50 ∧
    sampleVariance [50, 50, 50, 50, 50] = 0 ∧
    specDynamicHigh 50 0 = 55 ∧
    (55 : ℚ) ≤ 57 ∧
    classifyRegime 57 1 [1, 1, 1, 1, 1] = MarketRegime.neutral := by
  refine ⟨?_, ?_, ?_, by norm_num, ?_⟩ <;>
    norm_num [listMean, sampleVariance, specDynamicHigh, clamp, classifyRegime,
      codeIsVolatile, dequeAppend20]

/-- C4 amended: the classifier uses the fixed RSI thresholds 60 (high) and 40
(low) for every input (no dynamically computed thresholds); classification is
RSI ≥ 60 → bull regime (STABLE_BULL or VOLATILE_BULL by the volatility flag),
RSI ≤ 40 → bear regime (QUIET_BEAR or PANIC_BEAR), otherwise NEUTRAL, where
the volatility flag is ATR > 1.1 × mean of the ATR history (≥ 5 samples after
appending) or ATR > 1.1 × ATR itself before that. -/
theorem C4_amended (rsi atr : ℚ) (atrHist : List ℚ) :
    classifyRegime rsi atr atrHist = fixedThresholdClassify rsi (codeIsVolatile atr atrHist) ∧
    ((classifyRegime rsi atr atrHist = .stableBull ∨
      classifyRegime rsi atr atrHist = .volatileBull) ↔ 60 ≤ rsi) ∧
    ((classifyRegime rsi atr atrHist = .quietBear ∨
      classifyRegime rsi atr atrHist = .panicBear) ↔ rsi ≤ 40) ∧
    (classifyRegime rsi atr atrHist = .neutral ↔ (40 < rsi ∧ rsi < 60)) := by
  unfold classifyRegime fixedThresholdClassify
  refine ⟨rfl, ?_, ?_, ?_⟩ <;> split_ifs <;> simp_all <;> linarith

theorem entryStep_keys_nodup (st : List (String × PositionRec)) (code : String)
    (res : EntryRes) (strongTh : ℚ) (minTh : MinThresholds) (now deadline : ℚ)
    (rec : PositionRec) (h : (st.map Prod.fst).Nodup) :
    ((entryStep st code res strongTh minTh now deadline rec).map Prod.fst).Nodup := by
  unfold entryStep
  split_ifs with h1 h2
  · exact h
  · simp only [List.map_cons]
    exact List.nodup_cons.mpr ⟨by simpa using h2, h⟩
  · exact h

theorem closeStep_keys_nodup (st : List (String × PositionRec)) (code : String)
    (h : (st.map Prod.fst).Nodup) : ((closeStep st code).map Prod.fst).Nodup := by
  unfold closeStep
  have hsub : (st.filter (fun p => decide (p.1 ≠ code))).Sublist st := List.filter_sublist st
  exact (hsub.map Prod.fst).nodup h

/-- C7: at most one open position per instrument code.  If a code already has
an open position then `evaluate_entry_signal` is false and the entry step is a
no-op, and across every sequence of entry and exit evaluations the
open-position set never gains a duplicate instrument-code key. -/
theorem C7_at_most_one_open_position (strongTh : ℚ) (minTh : MinThresholds)
    (deadline : ℚ) (st : List (String × PositionRec)) (code : String) (res : EntryRes)
    (now : ℚ) (rec : PositionRec) :
    (code ∈ st.map Prod.fst →
      evaluateEntrySignal (st.map Prod.fst) code res strongTh minTh now deadline = false ∧
      entryStep st code res strongTh minTh now deadline rec = st) ∧
    (∀ ops : List PosOp, (st.map Prod.fst).Nodup →
      ((applyOps strongTh minTh deadline st ops).map Prod.fst).Nodup) := by
  constructor
  · intro hmem
    have heval : evaluateEntrySignal (st.map Prod.fst) code res strongTh minTh now deadline
        = false := by
      unfold evaluateEntrySignal
      simp [hmem]
    refine ⟨heval, ?_⟩
    unfold entryStep
    rw [heval]
    simp
  · intro ops
    induction ops generalizing st with
    | nil => intro h; simpa [applyOps] using h
    | cons op t ih =>
      intro h
      cases op with
      | entry c r n pr =>
          exact ih _ (entryStep_keys_nodup st c r strongTh minTh n deadline pr h)
      | close c => exact ih _ (closeStep_keys_nodup st c h)

/-- Concrete instance of C7: with code A already open, the entry evaluation
for A is rejected and the state is unchanged, and a run of further
entry/exit operations keeps the keys duplicate-free. -/
theorem C7_at_most_one_open_position_witness :
    (evaluateEntrySignal ["A"] "A" ⟨90, 90, 90, 90, 95⟩ 85 ⟨10, 10, 10, 10⟩ 600 870 = false ∧
     entryStep [("A", ⟨1, 100, 90⟩)] "A" ⟨90, 90, 90, 90, 95⟩ 85 ⟨10, 10, 10, 10⟩ 600 870
       ⟨2, 101, 95⟩ = [("A", ⟨1, 100, 90⟩)]) ∧
    (((applyOps 85 ⟨10, 10, 10, 10⟩ 870 [("A", ⟨1, 100, 90⟩)]
        [PosOp.entry "A" ⟨90, 90, 90, 90, 95⟩ 600 ⟨2, 101, 95⟩,
         PosOp.entry "B" ⟨90, 90, 90, 90, 95⟩ 600 ⟨3, 50, 95⟩,
         PosOp.close "A"]).map Prod.fst).Nodup) := by
  constructor
  · exact (C7_at_most_one_open_position 85 ⟨10, 10, 10, 10⟩ 870 [("A", ⟨1, 100, 90⟩)] "A"
      ⟨90, 90, 90, 90, 95⟩ 600 ⟨2, 101, 95⟩).1 (by simp)
  · exact (C7_at_most_one_open_position 85 ⟨10, 10, 10, 10⟩ 870 [("A", ⟨1, 100, 90⟩)] "A"
      ⟨90, 90, 90, 90, 95⟩ 600 ⟨2, 101, 95⟩).2 _ (by simp)

/-- C8: supply-cache updates are isolated per category.  For a cached
instrument, a category whose bulk map lacks the code (in particular because
the fetch of that category failed and collapsed to an empty map) keeps its previous
cached value, while a category whose fetch succeeded with data for the code
still updates in the same cycle. -/
theorem C8_supply_cache_isolation (pgmRes : Except Unit (List (String × PgmData)))
    (frgnRes : Except Unit (List (String × FrgnData))) (code : String)
    (e : SupplyCacheEntry) :
    (lookupCode (fetchOrEmpty pgmRes) code = none →
      (updateSupplyCategories pgmRes frgnRes code e).pgmData = e.pgmData) ∧
    (∀ d, lookupCode (fetchOrEmpty pgmRes) code = some d →
      (updateSupplyCategories pgmRes frgnRes code e).pgmData = d) ∧
    (lookupCode (fetchOrEmpty frgnRes) code = none →
      (updateSupplyCategories pgmRes frgnRes code e).foreignData = e.foreignData) ∧
    (∀ d, lookupCode (fetchOrEmpty frgnRes) code = some d →
      (updateSupplyCategories pgmRes frgnRes code e).foreignData = d) ∧
    (frgnRes = .error () →
      (updateSupplyCategories pgmRes frgnRes code e).foreignData = e.foreignData) := by
  have hfp : ∀ (m : List (String × FrgnData)) (x : SupplyCacheEntry),
      (updateForeignData code m x).pgmData = x.pgmData := by
    intro m x
    unfold updateForeignData
    cases lookupCode m code <;> rfl
  have hpf : ∀ (m : List (String × PgmData)) (x : SupplyCacheEntry),
      (updateProgramData code m x).foreignData = x.foreignData := by
    intro m x
    unfold updateProgramData
    cases lookupCode m code <;> rfl
  refine ⟨?_, ?_, ?_, ?_, ?_⟩
  · intro h
    simp [updateSupplyCategories, hfp, updateProgramData, h]
  · intro d h
    simp [updateSupplyCategories, hfp, updateProgramData, h]
  · intro h
    simp [updateSupplyCategories, updateForeignData, h, hpf]
  · intro d h
    simp [updateSupplyCategories, updateForeignData, h]
  · intro h
    subst h
    have hnone :
        lookupCode (fetchOrEmpty (Except.error () : Except Unit (List (String × FrgnData))))
          code = none := by
      simp [fetchOrEmpty, lookupCode]
    simp [updateSupplyCategories, updateForeignData, hnone, hpf]

/-- Concrete instance of C8: the foreign-window fetch fails while the
program-trade fetch succeeds with data for the instrument; the program-trade
field updates and the foreign-window field keeps its prior value. -/
theorem C8_supply_cache_isolation_witness :
    (updateSupplyCategories (.ok [("A", ⟨7, 2⟩)]) (.error ()) "A"
      ⟨⟨0, 0⟩, ⟨5, 9⟩⟩).pgmData = (⟨7, 2⟩ : PgmData) ∧
    (updateSupplyCategories (.ok [("A", ⟨7, 2⟩)]) (.error ()) "A"
      ⟨⟨0, 0⟩, ⟨5, 9⟩⟩).foreignData = (⟨5, 9⟩ : FrgnData) := by
  constructor
  · exact (C8_supply_cache_isolation (.ok [("A", ⟨7, 2⟩)]) (.error ()) "A"
      ⟨⟨0, 0⟩, ⟨5, 9⟩⟩).2.1 ⟨7, 2⟩ (by simp [lookupCode, fetchOrEmpty])
  · exact (C8_supply_cache_isolation (.ok [("A", ⟨7, 2⟩)]) (.error ()) "A"
      ⟨⟨0, 0⟩, ⟨5, 9⟩⟩).2.2.2.2 rfl

/-- C9: exit execution is ordered and atomic with respect to persistence.
When an exit reason fires for an open position, on storage success the actions
are exactly storage record, then notification, then in-memory removal (in that
order) and the position leaves the open set; on storage failure the state is
completely unchanged, so the position stays open for a later retry. -/
theorem C9_exit_atomicity (c : ExitConfig) (now : ℚ) (s : EngineState) (code : String)
    (price score strong : ℚ) (pos : PositionRec) (r : ExitReason)
    (hpos : lookupCode s.positions code = some pos)
    (hreason : getExitReason c now pos.buyPrice pos.buyScore price score strong = some r) :
    (monitorActiveSignals true c now s code price score strong =
      ({ positions := closeStep s.positions code,
         dbClosed := s.dbClosed ++
           [(pos.recId, price, pyRound 2 ((price / pos.buyPrice - 1) * 100), r)] },
       [.dbRecordSell pos.recId price (pyRound 2 ((price / pos.buyPrice - 1) * 100)) r,
        .notifySell (pyRound 2 ((price / pos.buyPrice - 1) * 100)) r,
        .removePosition code])) ∧
    (monitorActiveSignals false c now s code price score strong = (s, [])) := by
  constructor <;> simp [monitorActiveSignals, hpos, hreason]

/-- Concrete instance of C9: a stop-loss exit at −2% with a working store
emits record, notify, remove in order and removes the position; with a failing
store the open-position set is untouched. -/
theorem C9_exit_atomicity_witness :
    (monitorActiveSignals true ⟨930, -3/200, 1/40, 3/20⟩ 600
       ⟨[("A", ⟨1, 100, 90⟩)], []⟩ "A" 98 80 85 =
      (⟨[], [(1, 98, -2, ExitReason.stopLoss (-2))]⟩,
       [.dbRecordSell 1 98 (-2) (ExitReason.stopLoss (-2)),
        .notifySell (-2) (ExitReason.stopLoss (-2)),
        .removePosition "A"])) ∧
    (monitorActiveSignals false ⟨930, -3/200, 1/40, 3/20⟩ 600
       ⟨[("A", ⟨1, 100, 90⟩)], []⟩ "A" 98 80 85 =
      (⟨[("A", ⟨1, 100, 90⟩)], []⟩, [])) := by
  have hpos : lookupCode [("A", (⟨1, 100, 90⟩ : PositionRec))] "A" = some ⟨1, 100, 90⟩ := by
    simp [lookupCode]
  have hreason : getExitReason ⟨930, -3/200, 1/40, 3/20⟩ 600 100 90 98 80 85 =
      some (ExitReason.stopLoss (-2)) := by
    norm_num [getExitReason, forcedExitTime, pyRound, roundHalfEven, evenInt]
  have h := C9_exit_atomicity ⟨930, -3/200, 1/40, 3/20⟩ 600
    ⟨[("A", ⟨1, 100, 90⟩)], []⟩ "A" 98 80 85 ⟨1, 100, 90⟩ (ExitReason.stopLoss (-2))
    hpos hreason
  refine ⟨?_, h.2⟩
  rw [h.1]
  norm_num [closeStep, pyRound, roundHalfEven, evenInt]

theorem wilderFold_nonneg (p : ℕ) (hp : 2 ≤ p) (l : List ℚ) :
    ∀ a : ℚ × ℚ, 0 ≤ a.1 → 0 ≤ a.2 →
      0 ≤ (l.foldl (wilderStep p) a).1 ∧ 0 ≤ (l.foldl (wilderStep p) a).2 := by
  induction l with
  | nil => intro a h1 h2; exact ⟨h1, h2⟩
  | cons c t ih =>
    intro a h1 h2
    have hp1 : (1 : ℚ) ≤ (p : ℚ) - 1 := by
      have : (2 : ℚ) ≤ (p : ℚ) := by exact_mod_cast hp
      linarith
    have hppos : (0 : ℚ) < (p : ℚ) := by
      have : (2 : ℚ) ≤ (p : ℚ) := by exact_mod_cast hp
      linarith
    refine ih (wilderStep p a c) ?_ ?_
    · have := le_max_right c (0 : ℚ)
      unfold wilderStep
      have hnum : 0 ≤ a.1 * ((p : ℚ) - 1) + max c 0 := by
        have : 0 ≤ a.1 * ((p : ℚ) - 1) := mul_nonneg h1 (by linarith)
        have hm : (0 : ℚ) ≤ max c 0 := le_max_right c 0
        linarith
      exact div_nonneg hnum (le_of_lt hppos)
    · unfold wilderStep
      have hnum : 0 ≤ a.2 * ((p : ℚ) - 1) + max (-c) 0 := by
        have : 0 ≤ a.2 * ((p : ℚ) - 1) := mul_nonneg h2 (by linarith)
        have hm : (0 : ℚ) ≤ max (-c) 0 := le_max_right (-c) 0
        linarith
      exact div_nonneg hnum (le_of_lt hppos)

theorem wilderAvgs_nonneg (p : ℕ) (hp : 2 ≤ p) (changes : List ℚ) :
    0 ≤ (wilderAvgs p changes).1 ∧ 0 ≤ (wilderAvgs p changes).2 := by
  unfold wilderAvgs
  refine wilderFold_nonneg p hp _ _ ?_ ?_
  · exact listMean_nonneg (by
      intro x hx
      rcases List.mem_map.mp hx with ⟨c, _, rfl⟩
      exact le_max_right c 0)
  · exact listMean_nonneg (by
      intro x hx
      rcases List.mem_map.mp hx with ⟨c, _, rfl⟩
      exact le_max_right (-c) 0)

/-- C10: for every price list the RSI lies in `[0, 100]`; with fewer than
`period + 1` prices it is exactly the neutral 50.0, and when the smoothed
average loss over the window is zero it is exactly 100.0. -/
theorem C10_rsi_bounds (p : ℕ) (hp : 2 ≤ p) (prices : List ℚ) :
    (0 ≤ rsiCalculate p prices ∧ rsiCalculate p prices ≤ 100) ∧
    (prices.length < p + 1 → rsiCalculate p prices = 50) ∧
    (smoothedAvgLoss p prices = 0 → p + 1 ≤ prices.length →
      rsiCalculate p prices = 100) := by
  refine ⟨?_, ?_, ?_⟩
  · unfold rsiCalculate
    split_ifs with h1 h2
    · norm_num
    · norm_num
    · set avgs := wilderAvgs p (priceChanges prices) with havgs
      have hnn := wilderAvgs_nonneg p hp (priceChanges prices)
      rw [← havgs] at hnn
      have hl : 0 < avgs.2 := lt_of_le_of_ne hnn.2 (by
        intro hc
        exact h2 hc.symm)
      have hrs : 0 ≤ avgs.1 / avgs.2 := div_nonneg hnn.1 (le_of_lt hl)
      have hden : (0 : ℚ) < 1 + avgs.1 / avgs.2 := by linarith
      have hub : 100 / (1 + avgs.1 / avgs.2) ≤ 100 :=
        div_le_self (by norm_num) (by linarith)
      have hlb : 0 < 100 / (1 + avgs.1 / avgs.2) := div_pos (by norm_num) hden
      exact pyRound_mem_Icc (by linarith) (by linarith) 2
  · intro h
    unfold rsiCalculate
    rw [if_pos h]
  · intro hz hlen
    unfold rsiCalculate
    rw [if_neg (by omega), if_pos (by exact hz)]

/-- Concrete instance of C10 at period 2: three equal prices give zero smoothed
loss and RSI exactly 100, a single price gives the neutral 50, and the bounds
hold at a generic evaluation point. -/
theorem C10_rsi_bounds_witness :
    rsiCalculate 2 [1, 1, 1] = 100 ∧
    rsiCalculate 2 [1] = 50 ∧
    (0 ≤ rsiCalculate 2 [3, 1, 2] ∧ rsiCalculate 2 [3, 1, 2] ≤ 100) := by
  refine ⟨?_, ?_, (C10_rsi_bounds 2 (by norm_num) [3, 1, 2]).1⟩
  · refine (C10_rsi_bounds 2 (by norm_num) [1, 1, 1]).2.2 ?_ (by norm_num)
    norm_num [smoothedAvgLoss, wilderAvgs, priceChanges, listMean]
  · exact (C10_rsi_bounds 2 (by norm_num) [1]).2.1 (by norm_num)

theorem pyClampScore_mem (x : ℚ) :
    0 ≤ pyRound 2 (clamp 0 100 x) ∧ pyRound 2 (clamp 0 100 x) ≤ 100 := by
  have h := clamp_mem_Icc 0 100 x (by norm_num)
  exact pyRound_mem_Icc h.1 h.2 2

theorem alphaScore_mem (m : SMetrics) : 0 ≤ alphaScore m ∧ alphaScore m ≤ 100 := by
  unfold alphaScore
  split_ifs <;> first | exact pyClampScore_mem _ | norm_num

theorem supplyScore_mem (m : SMetrics) : 0 ≤ supplyScore m ∧ supplyScore m ≤ 100 := by
  unfold supplyScore
  exact pyClampScore_mem _

theorem vwapScore_mem (m : SMetrics) : 0 ≤ vwapScore m ∧ vwapScore m ≤ 100 := by
  unfold vwapScore
  split_ifs <;> first | exact pyClampScore_mem _ | norm_num

theorem trendScore_mem (m : SMetrics) : 0 ≤ trendScore m ∧ trendScore m ≤ 100 := by
  unfold trendScore
  split_ifs <;> first | exact pyClampScore_mem _ | norm_num

theorem weightDeviation_nonneg (m : SMetrics) : 0 ≤ weightDeviation m := by
  unfold weightDeviation
  split_ifs with h
  · positivity
  · norm_num

theorem impVwap_pos (m : SMetrics) : 0 < impVwap m := by
  unfold impVwap
  have hd := weightDeviation_nonneg m
  have hmax : (0 : ℚ) < max 0.1 m.atrPercent :=
    lt_of_lt_of_le (by norm_num) (le_max_left _ _)
  have hq : 0 ≤ weightDeviation m / max 0.1 m.atrPercent := div_nonneg hd hmax.le
  have hden : (0 : ℚ) < 1 + weightDeviation m / max 0.1 m.atrPercent := by linarith
  exact div_pos (by norm_num) hden

theorem totalGap_nonneg (m : SMetrics) : 0 ≤ totalGap m := by
  unfold totalGap
  split_ifs with h
  · positivity
  · norm_num

theorem expansionFactor_nonneg (m : SMetrics) (hatr : 0 < m.atrPercent) :
    0 ≤ expansionFactor m := by
  unfold expansionFactor
  exact le_min (by norm_num) (div_nonneg (totalGap_nonneg m) hatr.le)

theorem impTrend_pos (m : SMetrics) (hatr : 0 < m.atrPercent) : 0 < impTrend m := by
  have hexp := expansionFactor_nonneg m hatr
  unfold impTrend isOrderedFactor
  split_ifs <;> nlinarith

theorem totalImp_pos (m : SMetrics) (hvf : 0 ≤ m.volFactor) (hatr : 0 < m.atrPercent) :
    0 < totalImp m := by
  have h1 := impVwap_pos m
  have h2 := impTrend_pos m hatr
  unfold totalImp impAlpha impSupply
  nlinarith

theorem weights_sum_one (m : SMetrics) (hvf : 0 ≤ m.volFactor) (hatr : 0 < m.atrPercent) :
    wAlpha m + wSupply m + wVwap m + wTrend m = 1 := by
  have hT := totalImp_pos m hvf hatr
  unfold wAlpha wSupply wVwap wTrend
  rw [div_add_div_same, div_add_div_same, div_add_div_same]
  exact div_self (ne_of_gt hT)

/-- C3 counterexample: the claim quantifies over every metrics input, but with
`vol_factor = −1` (all other fields benign) the dynamic weights denormalize to
(−5, −5, 7.5, 3.5) and the composite returned by
`calculate_conviction_score` is 500, far outside `[0, 100]`. -/
theorem C3_counterexample :
    convictionTotal badMetrics = 500 ∧ ¬(convictionTotal badMetrics ≤ 100) := by
  have h : convictionTotal badMetrics = 500 := by
    norm_num [convictionTotal, badMetrics, alphaScore, supplyScore, vwapScore, trendScore,
      wAlpha, wSupply, wVwap, wTrend, totalImp, impAlpha, impSupply, impVwap, impTrend,
      weightDeviation, isOrderedFactor, totalGap, expansionFactor, supplyBaseScore,
      pgmAdj, frgnAdj, supplyTrustFactor, marketTotalAmount, vwapPosScore, vwapSlopeFactor,
      vwapDeviation, overheatLimit, clamp, pyRound, roundHalfEven, evenInt]
  exact ⟨h, by rw [h]; norm_num⟩

/-- C3 amended: each of the four sub-scores always lies in `[0, 100]`, and the
composite score lies in `[0, 100]` for every valid metrics input, namely one
with a nonnegative `vol_factor`, a positive `atr_percent` and a nonzero
`ema20` (the inputs on which the Python code runs without denormalizing its
dynamic weights or dividing by zero). -/
theorem C3_amended (m : SMetrics) (hvf : 0 ≤ m.volFactor) (hatr : 0 < m.atrPercent)
    (_he20 : m.ema20 ≠ 0) :
    (0 ≤ alphaScore m ∧ alphaScore m ≤ 100) ∧
    (0 ≤ supplyScore m ∧ supplyScore m ≤ 100) ∧
    (0 ≤ vwapScore m ∧ vwapScore m ≤ 100) ∧
    (0 ≤ trendScore m ∧ trendScore m ≤ 100) ∧
    (0 ≤ convictionTotal m ∧ convictionTotal m ≤ 100) := by
  have hA := alphaScore_mem m
  have hS := supplyScore_mem m
  have hV := vwapScore_mem m
  have hT := trendScore_mem m
  refine ⟨hA, hS, hV, hT, ?_⟩
  have hTpos := totalImp_pos m hvf hatr
  have hiA : 0 ≤ impAlpha m := by unfold impAlpha; linarith
  have hiS : 0 ≤ impSupply m := by unfold impSupply; linarith
  have hiV : 0 ≤ impVwap m := (impVwap_pos m).le
  have hiT : 0 ≤ impTrend m := (impTrend_pos m hatr).le
  have hwA : 0 ≤ wAlpha m := div_nonneg hiA hTpos.le
  have hwS : 0 ≤ wSupply m := div_nonneg hiS hTpos.le
  have hwV : 0 ≤ wVwap m := div_nonneg hiV hTpos.le
  have hwT : 0 ≤ wTrend m := div_nonneg hiT hTpos.le
  have hsum := weights_sum_one m hvf hatr
  have h1 : alphaScore m * wAlpha m ≤ 100 * wAlpha m :=
    mul_le_mul_of_nonneg_right hA.2 hwA
  have h2 : supplyScore m * wSupply m ≤ 100 * wSupply m :=
    mul_le_mul_of_nonneg_right hS.2 hwS
  have h3 : vwapScore m * wVwap m ≤ 100 * wVwap m :=
    mul_le_mul_of_nonneg_right hV.2 hwV
  have h4 : trendScore m * wTrend m ≤ 100 * wTrend m :=
    mul_le_mul_of_nonneg_right hT.2 hwT
  have hx0 : 0 ≤ alphaScore m * wAlpha m + supplyScore m * wSupply m +
      vwapScore m * wVwap m + trendScore m * wTrend m := by
    have := mul_nonneg hA.1 hwA
    have := mul_nonneg hS.1 hwS
    have := mul_nonneg hV.1 hwV
    have := mul_nonneg hT.1 hwT
    linarith
  have hx1 : alphaScore m * wAlpha m + supplyScore m * wSupply m +
      vwapScore m * wVwap m + trendScore m * wTrend m ≤ 100 := by linarith
  unfold convictionTotal
  exact pyRound_mem_Icc hx0 hx1 1

/-- Concrete instance of C3 amended at a benign metrics value (vol factor 1,
ATR% 3, EMA20 = 10): all sub-scores and the composite lie in `[0, 100]`. -/
theorem C3_amended_witness :
    (0 : ℚ) ≤ 1 ∧ (0 : ℚ) < 3 ∧ (10 : ℚ) ≠ 0 ∧
    (0 ≤ convictionTotal ⟨[], [], 100, 0, 0, 0, 0, 100, 100, 100, 1, 100, 3, 12, 10, 8, 8⟩ ∧
     convictionTotal ⟨[], [], 100, 0, 0, 0, 0, 100, 100, 100, 1, 100, 3, 12, 10, 8, 8⟩ ≤ 100) :=
  ⟨by norm_num, by norm_num, by norm_num,
    (C3_amended ⟨[], [], 100, 0, 0, 0, 0, 100, 100, 100, 1, 100, 3, 12, 10, 8, 8⟩
      (by norm_num) (by norm_num) (by norm_num)).2.2.2.2⟩

end KiwoomStock
